import Mathlib

/-!
Verification development for the resource mapping / document-assembly engine
of `pinax/api/resource.py` (JSON:API-style resources).

The Python module is shallowly embedded below.  Domain objects are modelled
as association lists from field names to `Value`s (Python attribute access),
primary keys are modelled as strings (payload ids arrive as JSON strings and
the spec's external-store interface is keyed by those ids), and each Django
metadata lookup that the code performs (`_meta.get_field(...).attname`,
`rel.to._default_manager`, accessor names) is carried as resolved data on the
schema descriptors, since the store and model metadata are external
collaborators of this module.
-/

namespace PinaxApi

/-- A Python value stored in a domain-object field: a scalar (modelled as a
string), `None`, a related object, or a collection accessor (modelled as the
materialised list of its members, what `.all()` iterates). -/
inductive Value : Type where
  | vstr (s : String) : Value
  | vnone : Value
  | vobj (fields : List (String × Value)) : Value
  | vlist (items : List Value) : Value

/-- A domain object: its attribute dictionary.  The primary key is the
field named `"id"` (the `id` property of concrete `Resource` subclasses and
the `attrgetter("id")` used in `populate` both read it). -/
abbrev Obj : Type := List (String × Value)

/-- Python `getattr(obj, k)` for the fields a Django model instance always
exposes; absent fields read as `None`. -/
def getattrD (o : Obj) (k : String) : Value :=
  match o.lookup k with
  | some v => v
  | none => Value.vnone

/-- Python `setattr(obj, k, v)`: overwrite in place, else append. -/
def setattr_ (o : Obj) (k : String) (v : Value) : Obj :=
  if o.any (fun p => p.1 == k) then
    o.map (fun p => if p.1 == k then (k, v) else p)
  else
    o ++ [(k, v)]

/-- Python `str(...)` as it is applied to primary keys in this module.
Keys are modelled as strings, so stringification is the identity there. -/
def str_ : Value → String
  | Value.vstr s => s
  | Value.vnone => "None"
  | Value.vobj _ => "<object>"
  | Value.vlist _ => "<list>"

/-- The `id` property of a concrete resource subclass: the wrapped
object's primary key. -/
def idOf (o : Obj) : Value := getattrD o "id"

/-- A relationship descriptor, together with the Django metadata the code
resolves from it: the target model's default-manager contents
(`target_store`), the storage attribute a to-one assignment writes
(`attname`), and the collection accessor a deferred write uses
(`accessor_name`).  `target_api_type` is the `api_type` of
`rel.resource_class`. -/
structure RelDescr : Type where
  collection : Bool
  attr : Option String
  target_api_type : String
  target_store : List Obj
  attname : String
  accessor_name : String

mutual

/-- A `Resource` subclass: `api_type`, `attributes`, `relationships`,
`bound_viewset`, plus the model-metadata map `attname_of` standing for
`cls.model._meta.get_field(k).attname` on attribute keys. -/
inductive RClass : Type where
  | mk (api_type : String) (attributes : List String)
       (attname_of : String → String)
       (relationships : List (String × RelDescr))
       (bound_viewset : Option Viewset) : RClass

/-- A viewset binding: its parent resource class (what
`viewset.parent` must be for `get_self_link` to use it as one), the URL
lookup field `viewset.url.lookup["field"]`, and `viewset.url.base_name`. -/
inductive Viewset : Type where
  | mk (parent : Option RClass) (lookup_field : String)
       (base_name : String) : Viewset

end

def RClass.api_type : RClass → String
  | .mk a _ _ _ _ => a

def RClass.attributes : RClass → List String
  | .mk _ a _ _ _ => a

def RClass.attname_of : RClass → String → String
  | .mk _ _ f _ _ => f

def RClass.relationships : RClass → List (String × RelDescr)
  | .mk _ _ _ r _ => r

def RClass.bound_viewset : RClass → Option Viewset
  | .mk _ _ _ _ v => v

def Viewset.parent : Viewset → Option RClass
  | .mk p _ _ => p

def Viewset.lookup_field : Viewset → String
  | .mk _ f _ => f

def Viewset.base_name : Viewset → String
  | .mk _ _ b => b

/-! ### String helpers (Python string operations used by the module) -/

/-- Lexicographic comparison on character lists by code point, as Python
compares strings. -/
def charsLe : List Char → List Char → Bool
  | [], _ => true
  | _ :: _, [] => false
  | a :: as, b :: bs => if a = b then charsLe as bs else decide (a < b)

/-- Python `a <= b` on strings. -/
def strLeB (a b : String) : Bool := charsLe a.data b.data

def insertStr (x : String) : List String → List String
  | [] => [x]
  | y :: ys => if strLeB x y then x :: y :: ys else y :: insertStr x ys

/-- Python `sorted(...)` on a list of strings (insertion sort, stable). -/
def sortStr : List String → List String
  | [] => []
  | x :: xs => insertStr x (sortStr xs)

/-- Python `", ".join(...)`. -/
def joinComma : List String → String
  | [] => ""
  | [x] => x
  | x :: xs => x ++ ", " ++ joinComma xs

/-- Python `s.split(".", 1)` when it yields two parts: `some (head, rest)`
with the split on the first dot; `none` when `s` has no dot (where the
two-element unpacking raises `ValueError`). -/
def splitDotAux : List Char → List Char → Option (String × String)
  | [], _ => none
  | c :: cs, acc =>
    if c = '.' then some (String.mk acc.reverse, String.mk cs)
    else splitDotAux cs (c :: acc)

def splitDot (s : String) : Option (String × String) := splitDotAux s.data []

/-- The first dot-separated segment of an include path. -/
def headOf (s : String) : String :=
  match splitDot s with
  | none => s
  | some (h, _) => h

/-! ### Populator (`Resource.populate`) -/

/-- The `data` member of one relationship entry of an incoming payload:
either a to-one `{"data": {"id": ...}}` or a to-many
`{"data": [{"id": ...}, ...]}`. -/
inductive RelPayload : Type where
  | one (dataId : String) : RelPayload
  | many (ids : List String) : RelPayload

/-- An incoming payload: `data["attributes"]` (required key) and
`data.get("relationships", {})`, both in iteration order. -/
structure PPayload : Type where
  attributes : List (String × Value)
  relationships : List (String × RelPayload)

/-- Errors `populate` can raise: Django `ValidationError({key: msg})`, the
`KeyError` of an undeclared relationship name, and the `TypeError` of a
payload whose `data` shape does not match the declared cardinality. -/
inductive PopErr : Type where
  | validation (key : String) (msg : String) : PopErr
  | keyError : PopErr
  | typeError : PopErr

/-- The deferred write `obj.save_relationships = save`: the closure captures
the domain object under population, the resolved collection accessor name,
and the fetched queryset. -/
structure SaveClosure : Type where
  captured : Obj
  accessor : String
  qs : List Obj

/-- `.add(*qs)` on the collection accessor of `parent` (the external
collection store appends the fetched targets; accessors hold `vlist`). -/
def appendColl : Value → List Obj → Value
  | Value.vlist vs, qs => Value.vlist (vs ++ qs.map Value.vobj)
  | _, qs => Value.vlist (qs.map Value.vobj)

/-- Invoking a deferred closure: `parent` defaults to the captured object,
then the fetched targets are appended to the parent's collection accessor. -/
def SaveClosure.invoke (c : SaveClosure) (parent? : Option Obj) : Obj :=
  let parent := parent?.getD c.captured
  setattr_ parent c.accessor (appendColl (getattrD parent c.accessor) c.qs)

/-- `_default_manager.get(pk=pk)` on a target store: `none` is
`ObjectDoesNotExist`. -/
def manager_get (store : List Obj) (pk : String) : Option Obj :=
  store.find? (fun o => str_ (idOf o) == pk)

/-- The attribute pass of `populate` (resource.py lines 39-41): each payload
attribute is resolved through model metadata and assigned in order. -/
def applyAttributes (cls : RClass) (attrs : List (String × Value)) (obj : Obj) : Obj :=
  attrs.foldl (fun o kv => setattr_ o (cls.attname_of kv.1) kv.2) obj

def msgOne (k pk : String) : String :=
  "Relationship \"" ++ k ++ "\" object ID " ++ pk ++ " does not exist"

def msgMany (k : String) (missing : List String) : String :=
  "Relationship \"" ++ k ++ "\" object IDs " ++ joinComma (sortStr missing) ++
    " do not exist"

/-- The relationship pass of `populate` (resource.py lines 43-84), threading
the mutated object and the `save_relationships` attribute.  The first
component of the result is the state of the domain object when the loop
returns or raises (Python mutates the caller's object in place, so it stays
mutated when an error propagates). -/
def popRels (cls : RClass) :
    List (String × RelPayload) → Obj → Option SaveClosure →
    Obj × Option SaveClosure × Option PopErr
  | [], obj, sc => (obj, sc, none)
  | (k, v) :: rest, obj, sc =>
    match (cls.relationships).lookup k with
    | none => (obj, sc, some PopErr.keyError)
    | some rel =>
      if rel.collection then
        match v with
        | RelPayload.many dataIds =>
          let given := dataIds.dedup
          let qs := rel.target_store.filter (fun o => given.contains (str_ (idOf o)))
          let found := qs.map (fun o => str_ (idOf o))
          let missing := given.filter (fun i => !(found.contains i))
          if missing.isEmpty then
            popRels cls rest obj (some ⟨obj, rel.accessor_name, qs⟩)
          else
            (obj, sc, some (PopErr.validation k (msgMany k missing)))
        | RelPayload.one _ => (obj, sc, some PopErr.typeError)
      else
        match v with
        | RelPayload.one pk =>
          match manager_get rel.target_store pk with
          | none => (obj, sc, some (PopErr.validation k (msgOne k pk)))
          | some o => popRels cls rest (setattr_ obj rel.attname (Value.vobj o)) sc
        | RelPayload.many _ => (obj, sc, some PopErr.typeError)

/-- `Resource.populate(data, obj=None)`: build or take the domain object,
apply all attribute writes, then validate and link relationships.  Returns
the final object state, the attached `save_relationships` closure if any,
and the raised error if any. -/
def populate (cls : RClass) (data : PPayload) (obj0 : Option Obj) :
    Obj × Option SaveClosure × Option PopErr :=
  let obj := obj0.getD []
  let obj := applyAttributes cls data.attributes obj
  popRels cls data.relationships obj none

/-! ### Identifier and serializer (`get_identifier`, `serializable`) -/

/-- A JSON:API resource identifier `{"type": ..., "id": str(...)}`. -/
structure Identifier : Type where
  type_ : String
  id : String
deriving DecidableEq

/-- `Resource.get_identifier` for a resource of type `api_type` wrapping
`obj`. -/
def get_identifier (api_type : String) (obj : Obj) : Identifier :=
  ⟨api_type, str_ (idOf obj)⟩

/-- A to-one field holds an object or `None`; `asObj` extracts the object
(the modelled domain keeps only `vobj`/`vnone` in to-one fields). -/
def asObj : Value → Obj
  | Value.vobj f => f
  | _ => []

/-- The members from a collection accessor, what `.all()` yields; modelled
collections are `vlist`s of `vobj`s. -/
def collList : Value → List Obj
  | Value.vlist vs => vs.map asObj
  | _ => []

/-- One relationship entry of a serialized fragment: `data` is a single
identifier or an explicit null for cardinality One, a list for Many.
`one none` is the present-but-null entry, distinct from the name being
absent from the relationships map. -/
inductive RelData : Type where
  | one (data : Option Identifier) : RelData
  | many (data : List Identifier) : RelData

/-- The relationship loop of `serializable` (resource.py lines 147-160) for
one declared relationship. -/
def serializeRel (rel : RelDescr) (obj : Obj) (name : String) : RelData :=
  if rel.collection then
    RelData.many ((collList (getattrD obj name)).map
      (fun m => get_identifier rel.target_api_type m))
  else
    match getattrD obj name with
    | Value.vnone => RelData.one none
    | v => RelData.one (some (get_identifier rel.target_api_type (asObj v)))

/-- The full relationships map built by `serializable`, in declaration
order. -/
def serializeRels (cls : RClass) (obj : Obj) : List (String × RelData) :=
  cls.relationships.map (fun nr => (nr.1, serializeRel nr.2 obj nr.1))

/-! ### Include resolver (`resolve_include`) -/

/-- Modelled from the spec: the `Included` accumulator (its class is not in
src/, only `included.add` and `included.paths` are used there).  The
IncludeSet is keyed by Identifier, `add` is idempotent by identifier, and
iteration order is insertion order.  Entries pair the target resource
type's `api_type` with the wrapped domain object. -/
abbrev IncludeSet : Type := List (String × Obj)

/-- `included.add(resource)`: no-op when an entry with the same identifier
is present, else append. -/
def incAdd (inc : IncludeSet) (api_type : String) (o : Obj) : IncludeSet :=
  if inc.any (fun e => get_identifier e.1 e.2 = get_identifier api_type o) then inc
  else inc ++ [(api_type, o)]

/-- Errors of include resolution: the `SerializationError` of an undeclared
segment, the `AttributeError` Python raises when `.split` is called on the
empty-list `rest` (or `.all()` on a non-collection), and exhaustion of the
recursion fuel of the model. -/
inductive IncErr : Type where
  | serialization (msg : String) : IncErr
  | attributeError : IncErr
  | fuelExhausted : IncErr

/-- The argument `resolve_include` is called with: a dotted path string, or
the empty list `[]` the code itself passes as `rest` for a dot-free path. -/
inductive PathArg : Type where
  | str (s : String) : PathArg
  | emptyList : PathArg

/-- `resolve_include(resource, path, included)` (resource.py lines
175-185), threading the include set and returning the raised error if any.
Faithful points: the two-way unpacking of `path.split(".", 1)` falls back
to `head, rest = path, []`; on the empty-list argument `.split` raises
`AttributeError`; the member loop recurses with the ORIGINAL resource and
with `rest` before adding each member, and stops at the first raised
error.  `fuel` only bounds the modelled recursion depth. -/
def resolve_include :
    Nat → RClass → Obj → PathArg → IncludeSet → IncludeSet × Option IncErr
  | 0, _, _, _, inc => (inc, some IncErr.fuelExhausted)
  | Nat.succ _, _, _, PathArg.emptyList, inc => (inc, some IncErr.attributeError)
  | Nat.succ fuel, cls, obj, PathArg.str s, inc =>
    let hr : String × PathArg :=
      match splitDot s with
      | none => (s, PathArg.emptyList)
      | some (h, r) => (h, PathArg.str r)
    match (cls.relationships).lookup hr.1 with
    | none =>
      (inc, some (IncErr.serialization
        ("\x27" ++ hr.1 ++ "\x27 is not a valid relationship to include")))
    | some rel =>
      (collList (getattrD obj hr.1)).foldl
        (fun st m =>
          match st with
          | (i, some e) => (i, some e)
          | (i, none) =>
            match resolve_include fuel cls obj hr.2 i with
            | (i1, some e) => (i1, some e)
            | (i1, none) => (incAdd i1 rel.target_api_type m, none))
        (inc, none)

/-! ### Identifier & link resolver (`get_self_link`) -/

/-- Errors of self-link generation: the `RuntimeError` raised for a type
with no viewset binding (the spec's `BindingError`), and the attribute
failure of dereferencing a lookup field that does not hold an object. -/
inductive LinkErr : Type where
  | bindingError : LinkErr
  | attributeError : LinkErr
deriving DecidableEq

/-- Python dict assignment `d[k] = v`: overwrite in place, else append. -/
def dictSet (d : List (String × String)) (k v : String) : List (String × String) :=
  if d.any (fun p => p.1 == k) then
    d.map (fun p => if p.1 == k then (k, v) else p)
  else
    d ++ [(k, v)]

/-- The nested `resolve` of `get_self_link` (resource.py lines 120-134):
process the parent chain first (root entries first in `kwargs`), threading
the `nonlocal obj`, which starts as the resource's own object at the root
level and is dereferenced through each level's lookup field below it.
Returns the kwargs insertion-ordered map and the final threaded object. -/
def resolveW (self_obj : Obj) :
    RClass → Except LinkErr (List (String × String) × Obj)
  | RClass.mk _ _ _ _ none => Except.error LinkErr.bindingError
  | RClass.mk _ _ _ _ (some (Viewset.mk none field _)) =>
    Except.ok (dictSet [] field (str_ (idOf self_obj)), self_obj)
  | RClass.mk _ _ _ _ (some (Viewset.mk (some p) field _)) =>
    match resolveW self_obj p with
    | Except.error e => Except.error e
    | Except.ok (kw, prevObj) =>
      match getattrD prevObj field with
      | Value.vobj f => Except.ok (dictSet kw field (str_ (idOf f)), f)
      | _ => Except.error LinkErr.attributeError

/-- Modelled from the spec: the external route-reversal collaborator
`reverse(routeName, lookupMap) -> path`; it produces a path embedding the
route name and every lookup value in map order. -/
def reverse (route : String) (kwargs : List (String × String)) : String :=
  "/" ++ route ++ (kwargs.map (fun p => "/" ++ p.2)).foldl (fun a b => a ++ b) ""

/-- `Resource.get_self_link(request=None)`: run the chain walk, then
reverse the leaf viewset's detail route with the collected kwargs. -/
def get_self_link (cls : RClass) (obj : Obj) : Except LinkErr String :=
  match resolveW obj cls with
  | Except.error e => Except.error e
  | Except.ok (kw, _) =>
    match cls.bound_viewset with
    | none => Except.error LinkErr.bindingError
    | some vs => Except.ok (reverse (vs.base_name ++ "-detail") kw)

/-- Whether every resource class along the viewset parent chain carries a
binding, i.e. whether the chain walk of `get_self_link` can reach the root
without hitting the missing-binding branch. -/
def chainFullyBound : RClass → Bool
  | RClass.mk _ _ _ _ none => false
  | RClass.mk _ _ _ _ (some (Viewset.mk none _ _)) => true
  | RClass.mk _ _ _ _ (some (Viewset.mk (some p) _ _)) => chainFullyBound p

/-! ### Serializer top level (`serializable`) -/

/-- The caller's `Included` object as `serializable` sees it: its requested
paths and its current accumulated set. -/
structure IncludedState : Type where
  paths : List String
  set : IncludeSet

/-- Exceptions that abort `serializable`: a propagated include-resolution
error or a propagated link error. -/
inductive SerErr : Type where
  | inc (e : IncErr) : SerErr
  | link (e : LinkErr) : SerErr

/-- The serialized fragment `res`: attributes, optional `links.self`,
the identifier merged at top level, and the `relationships` key, present
only when the relationships map is non-empty. -/
structure Fragment : Type where
  attributes : List (String × Value)
  links : Option String
  type_ : String
  id : String
  relationships? : Option (List (String × RelData))

/-- The include loop of `serializable`: resolve each requested path from
this resource, threading the include set, stopping at the first error. -/
def runIncludePaths (fuel : Nat) (cls : RClass) (obj : Obj) :
    List String → IncludeSet → Except IncErr IncludeSet
  | [], inc => Except.ok inc
  | p :: ps, inc =>
    match resolve_include fuel cls obj (PathArg.str p) inc with
    | (_, some e) => Except.error e
    | (inc1, none) => runIncludePaths fuel cls obj ps inc1

/-- `Resource.serializable(included=None, request=None)` (resource.py lines
143-172): attributes in declared order, the relationships map, include
resolution when an `Included` is supplied, then the fragment with
`links.self` only for a bound type and `relationships` only when
non-empty.  Returns the fragment and the updated include set. -/
def serializable (cls : RClass) (obj : Obj) (included : Option IncludedState)
    (fuel : Nat) : Except SerErr (Fragment × Option IncludeSet) :=
  let attributes := cls.attributes.map (fun a => (a, getattrD obj a))
  let relationships := serializeRels cls obj
  let incRes : Except SerErr (Option IncludeSet) :=
    match included with
    | none => Except.ok none
    | some st =>
      match runIncludePaths fuel cls obj st.paths st.set with
      | Except.error e => Except.error (SerErr.inc e)
      | Except.ok inc1 => Except.ok (some inc1)
  match incRes with
  | Except.error e => Except.error e
  | Except.ok inc1 =>
    match cls.bound_viewset with
    | none =>
      Except.ok (⟨attributes, none, cls.api_type, str_ (idOf obj),
        if relationships.isEmpty then none else some relationships⟩, inc1)
    | some _ =>
      match get_self_link cls obj with
      | Except.error e => Except.error (SerErr.link e)
      | Except.ok url =>
        Except.ok (⟨attributes, some url, cls.api_type, str_ (idOf obj),
          if relationships.isEmpty then none else some relationships⟩, inc1)

/-! ### Concrete fixtures used by witnesses and counterexample evaluations -/

/-- A tag object with primary key `"1"`. -/
def tagObj1 : Obj := [("id", Value.vstr "1")]

/-- An author object with primary key `"2"`. -/
def authObj2 : Obj := [("id", Value.vstr "2")]

/-- A Many relationship to tags whose store holds only `tagObj1`. -/
def tagsManyRel : RelDescr := ⟨true, none, "tags", [tagObj1], "tags", "tags_set"⟩

/-- A post class for include-resolution evaluations: one declared Many
relationship `"tags"`. -/
def incCls : RClass :=
  RClass.mk "posts" [] (fun s => s) [("tags", tagsManyRel)] none

/-- A post object whose `tags` collection holds one member. -/
def incObj : Obj :=
  [("id", Value.vstr "p1"), ("tags", Value.vlist [Value.vobj tagObj1])]

/-- Fixtures for C2: a post class with the Many relationship `"tags"`. -/
def c2cls : RClass :=
  RClass.mk "posts" [] (fun s => s) [("tags", tagsManyRel)] none

/-- Fixtures for C3: a class with two Many relationships, `"tags"` then
`"authors"`, whose stores hold `tagObj1` and `authObj2`. -/
def c3authorsRel : RelDescr := ⟨true, none, "people", [authObj2], "authors", "authors_set"⟩

def c3cls : RClass :=
  RClass.mk "posts" [] (fun s => s)
    [("tags", tagsManyRel), ("authors", c3authorsRel)] none

/-- A persisted parent for C3's closure invocation, with both collection
accessors empty. -/
def c3parent : Obj :=
  [("id", Value.vstr "p9"), ("tags_set", Value.vlist []), ("authors_set", Value.vlist [])]

/-- Fixtures for C4/C8: a three-level viewset binding chain. -/
def c4root : RClass :=
  RClass.mk "roots" [] (fun s => s) [] (some (Viewset.mk none "f1" "root"))

def c4mid : RClass :=
  RClass.mk "mids" [] (fun s => s) [] (some (Viewset.mk (some c4root) "f2" "mid"))

def c4leaf : RClass :=
  RClass.mk "leaves" [] (fun s => s) [] (some (Viewset.mk (some c4mid) "f3" "leaf"))

/-- The leaf object of the three-level chain: dereferencing `f2` then `f3`
reaches the other two levels' objects. -/
def c4obj : Obj :=
  [("id", Value.vstr "L"),
   ("f2", Value.vobj [("id", Value.vstr "M"), ("f3", Value.vobj [("id", Value.vstr "N")])])]

/-- An unbound resource class for C8. -/
def c8unbound : RClass := RClass.mk "loose" [] (fun s => s) [] none

/-- A class bound to a viewset whose parent class is unbound, for C8. -/
def c8parentUnbound : RClass :=
  RClass.mk "kids" [] (fun s => s) [] (some (Viewset.mk (some c8unbound) "g" "kid"))

/-- Fixtures for C5/C10: a to-one relationship `"author"` whose store holds
one person with primary key `"7"`. -/
def personObj7 : Obj := [("id", Value.vstr "7"), ("name", Value.vstr "Ada")]

def authorOneRel : RelDescr := ⟨false, none, "people", [personObj7], "author_id", "author_set"⟩

def c5cls : RClass :=
  RClass.mk "posts" ["name"] (fun s => s) [("author", authorOneRel)] none

/-- Fixtures for C6: a class with the to-one relationship `"author"`. -/
def c6cls : RClass :=
  RClass.mk "posts" ["name"] (fun s => s) [("author", authorOneRel)] none

def c6objPresent : Obj :=
  [("id", Value.vstr "p1"), ("author", Value.vobj personObj7)]

def c6objNull : Obj := [("id", Value.vstr "p1"), ("author", Value.vnone)]

/-- Fixture for C9: a class exposing the attribute `"name"`. -/
def c9cls : RClass :=
  RClass.mk "posts" ["name"] (fun s => s) [] none

/-- Fixture for C10: an existing object carrying state before populate. -/
def c10existing : Obj := [("id", Value.vstr "p3"), ("name", Value.vstr "old")]

/-! ### Theorems -/

/-- `List.lookup` over a key-preserving map of an association list. -/
theorem lookup_map_pair {β γ : Type} (l : List (String × β)) (f : String → β → γ)
    (k : String) (r : β) (h : l.lookup k = some r) :
    (l.map (fun nr => (nr.1, f nr.1 nr.2))).lookup k = some (f k r) := by
  induction l with
  | nil => simp [List.lookup] at h
  | cons x xs ih =>
    rcases x with ⟨xk, xv⟩
    by_cases hk : k = xk
    · subst hk
      simp [List.lookup] at h ⊢
      exact congrArg (f k) h
    · have hb : (k == xk) = false := beq_eq_false_iff_ne.mpr hk
      simp [List.lookup, hb] at h ⊢
      exact ih h

/-- `List.lookup` over a list of keys tabulated against a function. -/
theorem lookup_map_self {β : Type} (f : String → β) (l : List String)
    (k : String) (h : k ∈ l) :
    (l.map (fun a => (a, f a))).lookup k = some (f k) := by
  induction l with
  | nil => cases h
  | cons x xs ih =>
    by_cases hk : k = x
    · subst hk; simp [List.lookup]
    · have hb : (k == x) = false := beq_eq_false_iff_ne.mpr hk
      rcases List.mem_cons.mp h with h1 | h1

      · exact absurd h1 hk
      · simp [List.lookup, hb]
        exact ih h1

/-- C7: resolving an include path whose first segment is undeclared fails
with a `SerializationError` and leaves the include set unchanged. -/
theorem resolve_include_undeclared (fuel : Nat) (cls : RClass) (obj : Obj)
    (s : String) (inc : IncludeSet)
    (h : (cls.relationships).lookup (headOf s) = none) :
    resolve_include (fuel + 1) cls obj (PathArg.str s) inc =
      (inc, some (IncErr.serialization
        ("\x27" ++ headOf s ++ "\x27 is not a valid relationship to include"))) := by
  cases hsp : splitDot s with
  | none =>
    have h' := h
    simp only [headOf, hsp] at h'
    simp [resolve_include, hsp, h']
    simp [headOf, hsp]
  | some hr =>
    rcases hr with ⟨hd, rest⟩
    have h' := h
    simp only [headOf, hsp] at h'
    simp [resolve_include, hsp, h']
    simp [headOf, hsp]

/-- C7 witness: resolving `"ghost"` on the post class fails with a
`SerializationError` naming `ghost` and adds nothing. -/
theorem resolve_include_undeclared_witness :
    resolve_include 1 incCls incObj (PathArg.str "ghost") [] =
      ([], some (IncErr.serialization
        "\x27ghost\x27 is not a valid relationship to include")) :=
  resolve_include_undeclared 0 incCls incObj "ghost" [] rfl

/-- C1 (code evaluation at the failing input): include resolution does not
add the reachable member and does not resolve rest segments against the
target type.  (a) On the one-segment path `"tags"`, whose relationship
holds one member, the member loop first recurses with the empty-list
`rest`, where `.split` raises `AttributeError`, so nothing is added.
(b) On the dotted path `"tags.color"` the recursion keeps the ORIGINAL
resource, so `"color"` is looked up among the post's relationships and
fails with `SerializationError` instead of being resolved on the tag
type. -/
theorem resolve_include_recursion_bug :
    resolve_include 10 incCls incObj (PathArg.str "tags") [] =
      ([], some IncErr.attributeError) ∧
    resolve_include 10 incCls incObj (PathArg.str "tags.color") [] =
      ([], some (IncErr.serialization
        "\x27color\x27 is not a valid relationship to include")) :=
  ⟨rfl, rfl⟩

/-- Membership form of the found-id test of `populate`: an id requested in
`given` is among the ids of the batch-fetched queryset exactly when some
store object carries it. -/
theorem contains_fetched_ids (store : List Obj) (given : List String) (i : String)
    (hi : given.contains i = true) :
    ((store.filter (fun o => given.contains (str_ (idOf o)))).map
        (fun o => str_ (idOf o))).contains i
      = store.any (fun o => str_ (idOf o) == i) := by
  induction store with
  | nil => rfl
  | cons o os ih =>
    rw [List.filter_cons]
    by_cases hg : given.contains (str_ (idOf o)) = true
    · rw [if_pos hg, List.map_cons, List.contains_cons, ih, List.any_cons]
      have hsym : (i == str_ (idOf o)) = (str_ (idOf o) == i) := by
        by_cases h : str_ (idOf o) = i
        · rw [h]
        · rw [beq_eq_false_iff_ne.mpr (fun hh => h hh.symm),
            beq_eq_false_iff_ne.mpr h]
      rw [hsym]
    · rw [if_neg hg, ih, List.any_cons]
      have h : str_ (idOf o) ≠ i := fun he => hg (by rw [he]; exact hi)
      rw [beq_eq_false_iff_ne.mpr h, Bool.false_or]

/-- The `missing` set computed by `populate` equals the requested ids that
no store object carries. -/
theorem missing_eq_unfetched (store : List Obj) (given : List String) :
    given.filter (fun i =>
        !(((store.filter (fun o => given.contains (str_ (idOf o)))).map
            (fun o => str_ (idOf o))).contains i))
      = given.filter (fun i => !(store.any (fun o => str_ (idOf o) == i))) := by
  apply List.filter_congr
  intro i hi
  have hc : given.contains i = true := by
    exact List.elem_iff.mpr hi
  rw [contains_fetched_ids store given i hc]

/-- C2: populating a payload with a cardinality-Many relationship extracts
the requested ids, batch-fetches matching targets, and fails with a
`ValidationError` keyed by the relationship name listing exactly the
requested ids that no target in the store carries, joined in sorted order;
when every requested id is found, no error is raised. -/
theorem populate_many_missing (cls : RClass) (k : String) (rel : RelDescr)
    (attrs : List (String × Value)) (ids : List String) (obj0 : Option Obj)
    (hrel : (cls.relationships).lookup k = some rel)
    (hcoll : rel.collection = true) :
    (populate cls ⟨attrs, [(k, RelPayload.many ids)]⟩ obj0).2.2 =
      (if ids.dedup.filter
            (fun i => !(rel.target_store.any (fun o => str_ (idOf o) == i))) = []
       then none
       else some (PopErr.validation k (msgMany k
         (ids.dedup.filter
            (fun i => !(rel.target_store.any (fun o => str_ (idOf o) == i))))))) := by
  have hm := missing_eq_unfetched rel.target_store ids.dedup
  simp only [populate, popRels, hrel, hcoll, if_true]
  rw [hm]
  cases hmi : ids.dedup.filter
      (fun i => !(rel.target_store.any (fun o => str_ (idOf o) == i))) with
  | nil => simp [popRels]
  | cons a as => simp

/-- C2 witness: requesting tag ids `"3"`, `"1"`, `"9"` when only `"1"`
exists fails with a `ValidationError` keyed `"tags"` listing `"3, 9"`;
requesting only `"1"` raises nothing. -/
theorem populate_many_missing_witness :
    (populate c2cls ⟨[], [("tags", RelPayload.many ["3", "1", "9"])]⟩ none).2.2 =
      some (PopErr.validation "tags"
        "Relationship \"tags\" object IDs 3, 9 do not exist") ∧
    (populate c2cls ⟨[], [("tags", RelPayload.many ["1"])]⟩ none).2.2 = none := by
  constructor
  · rw [populate_many_missing c2cls "tags" tagsManyRel [] ["3", "1", "9"] none rfl rfl]
    rfl
  · rw [populate_many_missing c2cls "tags" tagsManyRel [] ["1"] none rfl rfl]
    rfl

/-- C3 (code evaluation at the failing input): populating a payload with
TWO cardinality-Many relationships whose ids all exist performs no
immediate write and raises nothing, but attaches only ONE deferred closure
— the assignment `obj.save_relationships = save` is repeated per
relationship, so the `"authors"` closure overwrites the `"tags"` closure;
invoking the surviving closure on the persisted parent appends only the
authors target to `authors_set` and never writes the tags relationship. -/
theorem populate_two_many_overwrites_closure :
    populate c3cls
        ⟨[], [("tags", RelPayload.many ["1"]), ("authors", RelPayload.many ["2"])]⟩
        none =
      ([], some ⟨[], "authors_set", [authObj2]⟩, none) ∧
    SaveClosure.invoke ⟨[], "authors_set", [authObj2]⟩ (some c3parent) =
      [("id", Value.vstr "p9"), ("tags_set", Value.vlist []),
       ("authors_set", Value.vlist [Value.vobj authObj2])] :=
  ⟨rfl, rfl⟩

/-- C5: populating a payload with a cardinality-One relationship fetches
the target by primary key; when absent the call fails with a
`ValidationError` keyed by the relationship name describing the missing id
(leaving only the attribute writes on the object), and when present the
target object is assigned onto the owning object's relationship field with
no error. -/
theorem populate_one_rel (cls : RClass) (k : String) (rel : RelDescr)
    (attrs : List (String × Value)) (pk : String) (obj0 : Option Obj)
    (hrel : (cls.relationships).lookup k = some rel)
    (hone : rel.collection = false) :
    populate cls ⟨attrs, [(k, RelPayload.one pk)]⟩ obj0 =
      (match manager_get rel.target_store pk with
       | none =>
         (applyAttributes cls attrs (obj0.getD []), none,
          some (PopErr.validation k (msgOne k pk)))
       | some o =>
         (setattr_ (applyAttributes cls attrs (obj0.getD [])) rel.attname
            (Value.vobj o), none, none)) := by
  simp only [populate, popRels, hrel, hone]
  cases manager_get rel.target_store pk with
  | none => simp
  | some o => simp [popRels]

/-- C5 witness: a to-one `"author"` payload with the unknown id `"9"`
fails with a `ValidationError` keyed `"author"`, and with the existing id
`"7"` assigns the fetched person onto the storage field with no error. -/
theorem populate_one_rel_witness :
    populate c5cls ⟨[("name", Value.vstr "Hi")], [("author", RelPayload.one "9")]⟩ none =
      ([("name", Value.vstr "Hi")], none,
       some (PopErr.validation "author"
         "Relationship \"author\" object ID 9 does not exist")) ∧
    populate c5cls ⟨[("name", Value.vstr "Hi")], [("author", RelPayload.one "7")]⟩ none =
      ([("name", Value.vstr "Hi"), ("author_id", Value.vobj personObj7)],
       none, none) := by
  constructor
  · rw [populate_one_rel c5cls "author" authorOneRel
      [("name", Value.vstr "Hi")] "9" none rfl rfl]
    rfl
  · rw [populate_one_rel c5cls "author" authorOneRel
      [("name", Value.vstr "Hi")] "7" none rfl rfl]
    rfl

/-- C10: populate is not atomic on the passed-in object: every attribute
write of the payload is applied before any relationship is validated, so
when a to-one relationship target is missing the call raises the
`ValidationError` while the returned object state is exactly the
attribute-mutated existing object, not a rolled-back one. -/
theorem populate_mutates_before_validation (cls : RClass) (k : String)
    (rel : RelDescr) (attrs : List (String × Value)) (pk : String) (existing : Obj)
    (hrel : (cls.relationships).lookup k = some rel)
    (hone : rel.collection = false)
    (hmiss : manager_get rel.target_store pk = none) :
    populate cls ⟨attrs, [(k, RelPayload.one pk)]⟩ (some existing) =
      (applyAttributes cls attrs existing, none,
       some (PopErr.validation k (msgOne k pk))) := by
  simp [populate, popRels, hrel, hone, hmiss, Option.getD]

/-- C10 witness: populating an existing object with the attribute
`name := "new"` and a missing `"author"` target raises the
`ValidationError` while `name` stays overwritten to `"new"` on the
object. -/
theorem populate_mutates_before_validation_witness :
    populate c5cls ⟨[("name", Value.vstr "new")], [("author", RelPayload.one "9")]⟩
        (some c10existing) =
      ([("id", Value.vstr "p3"), ("name", Value.vstr "new")], none,
       some (PopErr.validation "author"
         "Relationship \"author\" object ID 9 does not exist")) ∧
    getattrD [("id", Value.vstr "p3"), ("name", Value.vstr "new")] "name" =
      Value.vstr "new" := by
  constructor
  · rw [populate_mutates_before_validation c5cls "author" authorOneRel
      [("name", Value.vstr "new")] "9" c10existing rfl rfl rfl]
    rfl
  · rfl

/-- C6: serialization gives every declared cardinality-One relationship a
`data` entry holding the related object's Identifier (its type tag and
stringified id) when the related object is present, and the explicit null
marker `RelData.one none` when it is absent — an entry that exists with a
null `data`, distinguishable from a relationship missing from the map. -/
theorem serializable_to_one (cls : RClass) (obj : Obj) (name : String)
    (rel : RelDescr) (fuel : Nat)
    (hrel : (cls.relationships).lookup name = some rel)
    (hone : rel.collection = false)
    (hvs : cls.bound_viewset = none) :
    serializable cls obj none fuel =
      Except.ok (⟨cls.attributes.map (fun a => (a, getattrD obj a)), none,
        cls.api_type, str_ (idOf obj), some (serializeRels cls obj)⟩, none) ∧
    (serializeRels cls obj).lookup name =
      some (match getattrD obj name with
            | Value.vnone => RelData.one none
            | v => RelData.one (some (get_identifier rel.target_api_type (asObj v)))) := by
  constructor
  · have hne : (serializeRels cls obj).isEmpty = false := by
      unfold serializeRels
      cases hcl : cls.relationships with
      | nil => rw [hcl] at hrel; simp [List.lookup] at hrel
      | cons a l => simp
    simp [serializable, hvs, hne]
  · have hl := lookup_map_pair cls.relationships
      (fun n r => serializeRel r obj n) name rel hrel
    simp only [serializeRels]
    rw [hl]
    simp [serializeRel, hone]

/-- C6 witness: with the person present, the `"author"` entry's `data` is
the Identifier `{type := "people", id := "7"}`; with the field null, the
entry is present with an explicit null `data`. -/
theorem serializable_to_one_witness :
    ((serializeRels c6cls c6objPresent).lookup "author" =
        some (RelData.one (some ⟨"people", "7"⟩)) ∧
      serializable c6cls c6objPresent none 0 =
        Except.ok (⟨[("name", Value.vnone)], none, "posts", "p1",
          some [("author", RelData.one (some ⟨"people", "7"⟩))]⟩, none)) ∧
    (serializeRels c6cls c6objNull).lookup "author" =
      some (RelData.one none) := by
  refine ⟨⟨?_, ?_⟩, ?_⟩
  · rw [(serializable_to_one c6cls c6objPresent "author" authorOneRel 0
      rfl rfl rfl).2]
    rfl
  · exact (serializable_to_one c6cls c6objPresent "author" authorOneRel 0
      rfl rfl rfl).1
  · rw [(serializable_to_one c6cls c6objNull "author" authorOneRel 0
      rfl rfl rfl).2]
    rfl

/-- C9: populating a payload whose attributes map a declared attribute
name to a value and then serializing the resulting resource yields a
fragment whose attributes map that same name to that same value. -/
theorem attribute_roundtrip (cls : RClass) (name : String) (v : Value)
    (fuel : Nat)
    (hmem : name ∈ cls.attributes)
    (hatt : cls.attname_of name = name)
    (hvs : cls.bound_viewset = none) :
    populate cls ⟨[(name, v)], []⟩ none = ([(name, v)], none, none) ∧
    serializable cls [(name, v)] none fuel =
      Except.ok (⟨cls.attributes.map (fun a => (a, getattrD [(name, v)] a)),
        none, cls.api_type, str_ (idOf [(name, v)]),
        if (serializeRels cls [(name, v)]).isEmpty then none
        else some (serializeRels cls [(name, v)])⟩, none) ∧
    (cls.attributes.map (fun a => (a, getattrD [(name, v)] a))).lookup name =
      some v := by
  refine ⟨?_, ?_, ?_⟩
  · simp [populate, popRels, applyAttributes, hatt, setattr_]
  · simp [serializable, hvs]
  · rw [lookup_map_self (fun a => getattrD [(name, v)] a) cls.attributes name hmem]
    simp [getattrD, List.lookup]

/-- C9 witness: populate with attributes `{name := "Ada"}` then serialize
yields attributes containing `name := "Ada"`. -/
theorem attribute_roundtrip_witness :
    populate c9cls ⟨[("name", Value.vstr "Ada")], []⟩ none =
      ([("name", Value.vstr "Ada")], none, none) ∧
    serializable c9cls [("name", Value.vstr "Ada")] none 0 =
      Except.ok (⟨[("name", Value.vstr "Ada")], none, "posts", "None",
        none⟩, none) ∧
    ([("name", Value.vstr "Ada")] :
        List (String × Value)).lookup "name" = some (Value.vstr "Ada") := by
  have h := attribute_roundtrip c9cls "name" (Value.vstr "Ada") 0
    (by simp [c9cls, RClass.attributes]) rfl rfl
  refine ⟨h.1, ?_, ?_⟩
  · have h2 := h.2.1
    simpa [c9cls, RClass.attributes, RClass.api_type, RClass.relationships,
      serializeRels, getattrD, idOf, str_, List.lookup] using h2
  · have h3 := h.2.2
    simp [c9cls, RClass.attributes, getattrD, List.lookup] at h3
    simp [List.lookup, h3]

/-- C4: for a three-level viewset binding chain, the self-link walk builds
the kwargs map root first — the root level's lookup field mapped to the
stringified id of the resource's own object, and each lower level's lookup
field mapped to the stringified id of the object reached by dereferencing
the previous level's object through that level's lookup field — and the
link reverses the leaf's detail route with all three lookup values in
root-to-leaf order. -/
theorem get_self_link_three_level (leaf mid root : RClass) (o o2 o3 : Obj)
    (f1 f2 f3 bn bnm bnr : String)
    (hleaf : leaf.bound_viewset = some (Viewset.mk (some mid) f3 bn))
    (hmid : mid.bound_viewset = some (Viewset.mk (some root) f2 bnm))
    (hroot : root.bound_viewset = some (Viewset.mk none f1 bnr))
    (h2 : getattrD o f2 = Value.vobj o2)
    (h3 : getattrD o2 f3 = Value.vobj o3)
    (hne12 : f1 ≠ f2) (hne13 : f1 ≠ f3) (hne23 : f2 ≠ f3) :
    resolveW o leaf =
      Except.ok ([(f1, str_ (idOf o)), (f2, str_ (idOf o2)),
        (f3, str_ (idOf o3))], o3) ∧
    get_self_link leaf o =
      Except.ok (reverse (bn ++ "-detail")
        [(f1, str_ (idOf o)), (f2, str_ (idOf o2)), (f3, str_ (idOf o3))]) := by
  cases leaf with
  | mk la lb lc ld lvs =>
    simp only [RClass.bound_viewset] at hleaf
    subst hleaf
    cases mid with
    | mk ma mb mc md mvs =>
      simp only [RClass.bound_viewset] at hmid
      subst hmid
      cases root with
      | mk ra rb rc rd rvs =>
        simp only [RClass.bound_viewset] at hroot
        subst hroot
        refine ⟨?_, ?_⟩ <;>
          simp [get_self_link, resolveW, dictSet, h2, h3,
            RClass.bound_viewset, Viewset.base_name,
            beq_eq_false_iff_ne.mpr hne12, beq_eq_false_iff_ne.mpr hne13,
            beq_eq_false_iff_ne.mpr hne23]

/-- C4 witness: the concrete three-level chain produces the kwargs
`f1 := L, f2 := M, f3 := N` in root-to-leaf order, and the path
`/leaf-detail/L/M/N` containing all three lookup values. -/
theorem get_self_link_three_level_witness :
    resolveW c4obj c4leaf =
      Except.ok ([("f1", "L"), ("f2", "M"), ("f3", "N")],
        [("id", Value.vstr "N")]) ∧
    get_self_link c4leaf c4obj = Except.ok "/leaf-detail/L/M/N" := by
  have h := get_self_link_three_level c4leaf c4mid c4root c4obj
    [("id", Value.vstr "M"), ("f3", Value.vobj [("id", Value.vstr "N")])]
    [("id", Value.vstr "N")]
    "f1" "f2" "f3" "leaf" "mid" "root" rfl rfl rfl rfl rfl
    (by decide) (by decide) (by decide)
  exact ⟨h.1, h.2⟩

/-- The chain walk returns the missing-binding error exactly when some
class along the viewset parent chain has no binding. -/
theorem resolveW_bindingError_iff : ∀ (c : RClass) (o : Obj),
    (resolveW o c = Except.error LinkErr.bindingError ↔
      chainFullyBound c = false)
  | RClass.mk _ _ _ _ none, o => by
    simp [resolveW, chainFullyBound]
  | RClass.mk _ _ _ _ (some (Viewset.mk none f b)), o => by
    simp [resolveW, chainFullyBound]
  | RClass.mk a b c d (some (Viewset.mk (some p) f bn)), o => by
    have ih := resolveW_bindingError_iff p o
    simp only [resolveW, chainFullyBound]
    cases hp : resolveW o p with
    | error e =>
      cases e with
      | bindingError => simp [ih.mp hp]
      | attributeError =>
        have hcb : chainFullyBound p = true := by
          cases hcb : chainFullyBound p with
          | false =>
            rw [ih.mpr hcb] at hp
            simp at hp
          | true => rfl
        simp [hcb]
    | ok pr =>
      have hcb : chainFullyBound p = true := by
        cases hcb : chainFullyBound p with
        | false =>
          rw [ih.mpr hcb] at hp
          simp at hp
        | true => rfl
      rcases pr with ⟨kw, po⟩
      cases hg : getattrD po f <;> simp [hg, hcb]

/-- C8: requesting the self link on a resource whose type, or any type on
its viewset parent chain, has no binding fails with the missing-binding
error (the `RuntimeError` the spec calls `BindingError`); a resource whose
chain is fully bound never takes that error branch. -/
theorem get_self_link_binding_error (cls : RClass) (obj : Obj) :
    (chainFullyBound cls = false →
      get_self_link cls obj = Except.error LinkErr.bindingError) ∧
    (chainFullyBound cls = true →
      get_self_link cls obj ≠ Except.error LinkErr.bindingError) := by
  constructor
  · intro h
    have hb := (resolveW_bindingError_iff cls obj).mpr h
    simp [get_self_link, hb]
  · intro h hcontra
    have hne : resolveW obj cls ≠ Except.error LinkErr.bindingError := by
      intro he
      rw [(resolveW_bindingError_iff cls obj).mp he] at h
      simp at h
    cases cls with
    | mk a b c d vs =>
      cases vs with
      | none => simp [chainFullyBound] at h
      | some v =>
        simp only [get_self_link, RClass.bound_viewset] at hcontra
        cases hr : resolveW obj (RClass.mk a b c d (some v)) with
        | error e =>
          cases e with
          | bindingError => exact hne hr
          | attributeError => rw [hr] at hcontra; simp at hcontra
        | ok pr =>
          rcases pr with ⟨kw, po⟩
          rw [hr] at hcontra
          simp at hcontra

/-- C8 witness: an unbound class fails with the missing-binding error, a
class whose parent class is unbound fails the same way, and the fully
bound three-level chain never returns it. -/
theorem get_self_link_binding_error_witness :
    get_self_link c8unbound [] = Except.error LinkErr.bindingError ∧
    get_self_link c8parentUnbound [] = Except.error LinkErr.bindingError ∧
    get_self_link c4leaf c4obj ≠ Except.error LinkErr.bindingError :=
  ⟨(get_self_link_binding_error c8unbound []).1 rfl,
   (get_self_link_binding_error c8parentUnbound []).1 rfl,
   (get_self_link_binding_error c4leaf c4obj).2 rfl⟩

end PinaxApi
